import Mathlib

/-!
Shallow embedding of vifm's background-job subsystem (`src/background.c`,
POSIX code paths) and proofs about it.

The embedding models:
  * the `job_t` record and the intrusive registry (a `List Job`, head = newest);
  * `add_finished_job` (asynchronous completion notification);
  * `job_check` / `check_background_jobs` (the poller);
  * `job_free` (resource release, modelled as an effect record);
  * `background_and_wait_for_errors` together with `error_msg`;
  * `start_background_job`, `add_background_job`, `bg_execute`,
    `background_task_bootstrap`, `bg_has_active_jobs`.

External effects (child processes, pipes, `fork`, `malloc`, mutexes,
`prompt_error_msg`) are modelled by explicit oracle parameters: booleans for
success/failure of fallible primitives, a `String → Bool` oracle for the
modal prompt's return value, and a list of strings for the chunks
successively returned by `read` on a job's error pipe.
-/

namespace Background

/-- Job kinds, mirroring `BgJobType` of the source. -/
inductive BgJobType
  | BJT_COMMAND
  | BJT_TASK
  | BJT_OPERATION
  deriving DecidableEq, Repr

open BgJobType

/-- `WRONG_PID`: special pid value used for thread-backed jobs. -/
def WRONG_PID : Int := -1

/-- `NO_JOB_ID`: sentinel value of the error-pipe descriptor for thread jobs. -/
def NO_JOB_ID : Int := -1

/-- The `bg_op_t` progress record embedded in every `job_t`. -/
structure BgOp where
  total : Int
  done : Int
  progress : Int
  descr : Option String
  deriving DecidableEq, Repr

/-- The `job_t` record.  `bg_op_guard` models whether the progress mutex has
been initialized (`pthread_mutex_init` was called on it). -/
structure Job where
  type : BgJobType
  pid : Int
  cmd : String
  fd : Int
  skip_errors : Bool
  running : Bool
  exit_code : Int
  error : Option String
  bg_op : BgOp
  bg_op_guard : Bool
  deriving DecidableEq, Repr

/-- `add_finished_job(pid, exit_code)`: linear scan of the registry; the first
job whose pid matches is marked finished (then the loop breaks). -/
def add_finished_job (pid exit_code : Int) : List Job → List Job
  | [] => []
  | j :: rest =>
    if j.pid = pid then
      { j with running := false, exit_code := exit_code } :: rest
    else
      j :: add_finished_job pid exit_code rest

/-- `job_check(job)` on POSIX: surface a buffered `error` (prompting unless
`skip_errors`, then clearing the buffer), then drain whatever the error pipe
currently offers (only possible when `fd >= 0`), prompting for each chunk
unless suppressed.  `prompt` is the oracle for `prompt_error_msg`'s return
value; `pipeData` is the list of chunks `read` successively yields.
`running` is never touched on this path. -/
def job_check (prompt : String → Bool) (pipeData : List String) (j : Job) :
    Job :=
  let j1 :=
    match j.error with
    | some e =>
      let j2 := if j.skip_errors then j else { j with skip_errors := prompt e }
      { j2 with error := none }
    | none => j
  let chunks := if 0 ≤ j.fd then pipeData else []
  chunks.foldl
    (fun jb c => if jb.skip_errors then jb else { jb with skip_errors := prompt c })
    j1

/-- The walk inside `check_background_jobs`: each job is checked, then
unlinked if no longer running.  Returns the surviving registry and the list
of reaped (freed) jobs, both in original relative order. -/
def reap_walk (chk : Job → Job) : List Job → List Job × List Job
  | [] => ([], [])
  | j :: rest =>
    let j2 := chk j
    let r := reap_walk chk rest
    if j2.running then (j2 :: r.1, r.2) else (r.1, j2 :: r.2)

/-- `check_background_jobs()`: no-op when the registry is empty or the freeze
primitive fails; otherwise detaches the list, checks every job and reaps the
finished ones.  Result: (registry after the run, jobs unlinked and freed). -/
def check_background_jobs (freezeOk : Bool) (prompt : String → Bool)
    (pipeData : Job → List String) (jobs : List Job) : List Job × List Job :=
  if jobs.isEmpty then (jobs, [])
  else if ¬ freezeOk then (jobs, [])
  else reap_walk (fun j => job_check prompt (pipeData j) j) jobs

/-- Resources released by `job_free`, as an effect record. -/
structure FreeEffect where
  destroyed_guard : Bool
  closed_fd : Bool
  deriving DecidableEq, Repr

/-- `job_free(job)`: destroys the progress mutex only for non-command jobs,
closes the pipe descriptor only when it is not the sentinel. -/
def job_free (j : Job) : FreeEffect :=
  { destroyed_guard := decide (j.type ≠ BJT_COMMAND),
    closed_fd := decide (j.fd ≠ NO_JOB_ID) }

/-- `error_msg(title, text)`: with no current job recorded in the calling
thread's context the message is shown synchronously; with a current job the
text replaces that job's `error` buffer and the UI is untouched.  Result:
(updated current job, message shown immediately, if any). -/
def error_msg (cur : Option Job) (title text : String) :
    Option Job × Option (String × String) :=
  match cur with
  | none => (none, some (title, text))
  | some j => (some { j with error := some text }, none)

/-- `add_background_job(pid, cmd, fd, type)`: allocates and initializes a
job record and prepends it to the registry.  `mallocOk` models the
allocation; `ec0` models the indeterminate contents of the never-initialized
`exit_code` field.  The progress mutex is initialized exactly when the kind
is not `BJT_COMMAND`. -/
def add_background_job (mallocOk : Bool) (pid : Int) (cmd : String) (fd : Int)
    (type : BgJobType) (ec0 : Int) (registry : List Job) :
    Option (Job × List Job) :=
  if mallocOk then
    let new : Job :=
      { type := type
        pid := pid
        cmd := cmd
        fd := fd
        skip_errors := false
        running := true
        exit_code := ec0
        error := none
        bg_op := { total := 0, done := 0, progress := -1, descr := none }
        bg_op_guard := decide (type ≠ BJT_COMMAND) }
    some (new, new :: registry)
  else
    none

/-- `start_background_job(cmd, skip_errors)` on POSIX.  `frc` is the
`fast_run_complete` collaborator (`none` models its failure); `pipeOk`,
`forkOk`, `mallocOk` model `pipe`, `fork` and the job allocation; `pid`/`fd`
are the child pid and the read end of the error pipe.  On success the new
job heads the registry; every failure returns `-1` with the registry
untouched. -/
def start_background_job (fastRun : Bool) (frc : String → Option String)
    (pipeOk forkOk mallocOk : Bool) (pid fd ec0 : Int)
    (cmd : String) (skipErr : Bool) (registry : List Job) : Int × List Job :=
  match (if fastRun then frc cmd else some cmd) with
  | none => (-1, registry)
  | some command =>
    if ¬ pipeOk then (-1, registry)
    else if ¬ forkOk then (-1, registry)
    else
      match add_background_job mallocOk pid command fd BJT_COMMAND ec0 registry with
      | none => (-1, registry)
      | some (job, _) => (0, { job with skip_errors := skipErr } :: registry)

/-- `background_task_bootstrap`: runs the task routine (which can only touch
the job's progress record and, through `error_msg` with the current-job
context, its `error` buffer), then unconditionally marks the job finished
with exit code 0. -/
def background_task_bootstrap
    (func : BgOp × Option String → BgOp × Option String) (j : Job) : Job :=
  let r := func (j.bg_op, j.error)
  { j with bg_op := r.1, error := r.2, running := false, exit_code := 0 }

/-- `bg_execute(descr, op_descr, total, important, task_func, args)`.
Failure oracles, in program order: `taskArgsOk` (`malloc` of the wrapper
arguments), `jobAllocOk` (job allocation inside `add_background_job`),
`attrInitOk` (`pthread_attr_init`), `setDetachOk`
(`pthread_attr_setdetachstate`), `createOk` (`pthread_create`).  Returns the
`int` result and the registry after the call. -/
def bg_execute (taskArgsOk jobAllocOk attrInitOk setDetachOk createOk : Bool)
    (descr op_descr : String) (total : Int) (important : Bool) (ec0 : Int)
    (registry : List Job) : Int × List Job :=
  if ¬ taskArgsOk then (1, registry)
  else
    match add_background_job jobAllocOk WRONG_PID descr NO_JOB_ID
        (if important then BJT_OPERATION else BJT_TASK) ec0 registry with
    | none => (1, registry)
    | some (job, _) =>
      if ¬ attrInitOk then (1, job :: registry)
      else if ¬ setDetachOk then (1, job :: registry)
      else
        let job2 :=
          { job with bg_op :=
              { job.bg_op with descr := some op_descr, total := total } }
        if ¬ createOk then
          (1, { job2 with running := false, exit_code := 1 } :: registry)
        else
          (0, job2 :: registry)

/-- `strncat(buf, linebuf, sizeof(buf) - strlen(buf) - 1)` with `buf` of
800 bytes: appends at most the remaining capacity. -/
def cwe_append (buf c : String) : String :=
  String.mk (buf.data ++ c.data.take (800 - 1 - buf.data.length))

/-- The loop of `background_and_wait_for_errors` that accumulates chunks read
from the child's error pipe: every successful read forces `result := -1`; a
chunk that is exactly a lone blank line is dropped from the buffer, others
are appended under the `strncat` bound. -/
def cwe_loop : List String → String → Int → String × Int
  | [], buf, res => (buf, res)
  | c :: rest, buf, _ =>
    cwe_loop rest (if c = "\n" then buf else cwe_append buf c) (-1)

/-- Result of `background_and_wait_for_errors`: the returned exit code, the
current-job context after the call (its `error` buffer may have been
replaced), and the messages shown synchronously. -/
structure CweOut where
  ret : Int
  cur : Option Job
  shown : List (String × String)
  deriving DecidableEq, Repr

/-- `background_and_wait_for_errors(cmd, cancellable)` on POSIX.  `cur` is
the calling thread's current-job context (error routing), `pipeOk`/`forkOk`
model `pipe`/`fork`, `chunks` the successive reads from the error pipe,
`wifexited`/`exitStatus` the child's wait status.  A non-zero accumulated
result short-circuits the exit-status path and routes the buffer through
`error_msg`. -/
def background_and_wait_for_errors (cur : Option Job) (pipeOk forkOk : Bool)
    (chunks : List String) (wifexited : Bool) (exitStatus : Int) : CweOut :=
  if ¬ pipeOk then
    let r := error_msg cur "File pipe error" "Error creating pipe"
    { ret := -1, cur := r.1, shown := r.2.toList }
  else if ¬ forkOk then
    { ret := -1, cur := cur, shown := [] }
  else
    let lr := cwe_loop chunks "" 0
    if lr.2 ≠ 0 then
      let r := error_msg cur "Background Process Error" lr.1
      { ret := lr.2, cur := r.1, shown := r.2.toList }
    else
      { ret := if wifexited then exitStatus else -1, cur := cur, shown := [] }

/-- `bg_has_active_jobs()`: on freeze failure, conservatively report activity
without touching the registry; otherwise count running `BJT_OPERATION` jobs.
Result: (return value, registry after the call). -/
def bg_has_active_jobs (freezeOk : Bool) (jobs : List Job) : Bool × List Job :=
  if ¬ freezeOk then (true, jobs)
  else
    let bg_op_count :=
      jobs.foldl
        (fun n j => if j.running && j.type == BJT_OPERATION then n + 1 else n)
        (0 : Nat)
    (decide (bg_op_count > 0), jobs)

/-- The per-job mutators that can touch a job over its lifetime, as events:
the asynchronous completion notification (`add_finished_job` matching by
pid), the worker thread's bootstrap return, and the poller's per-job check. -/
inductive JobEvent
  | finishedNotification (pid code : Int)
  | bootstrapReturn (func : BgOp × Option String → BgOp × Option String)
  | pollerCheck (prompt : String → Bool) (pipeData : List String)

/-- Effect of one event on one job (the per-job view of the three mutators). -/
def applyEvent : JobEvent → Job → Job
  | .finishedNotification pid code, j =>
    if j.pid = pid then { j with running := false, exit_code := code } else j
  | .bootstrapReturn func, j => background_task_bootstrap func j
  | .pollerCheck prompt pipeData, j => job_check prompt pipeData j

/-- A sample registered command job (as `add_background_job` creates it,
pid 5, pipe fd 3). -/
def sampleCmdJob : Job :=
  { type := BJT_COMMAND
    pid := 5
    cmd := "ls"
    fd := 3
    skip_errors := false
    running := true
    exit_code := 0
    error := none
    bg_op := { total := 0, done := 0, progress := -1, descr := none }
    bg_op_guard := false }

/-- A sample registered thread job (pid `WRONG_PID`, fd `NO_JOB_ID`). -/
def sampleThreadJob : Job :=
  { type := BJT_TASK
    pid := -1
    cmd := "scan"
    fd := -1
    skip_errors := false
    running := true
    exit_code := 0
    error := none
    bg_op := { total := 0, done := 0, progress := -1, descr := none }
    bg_op_guard := true }

/-- A finished command job with exit code 127 (command not found), as the
poller would find it after the completion notification. -/
def sample127Job : Job :=
  { type := BJT_COMMAND
    pid := 9
    cmd := "misspelt"
    fd := -1
    skip_errors := false
    running := false
    exit_code := 127
    error := none
    bg_op := { total := 0, done := 0, progress := -1, descr := none }
    bg_op_guard := false }

/-! Helper lemmas shared by several claim theorems. -/

/-- The prompting fold inside `job_check` changes at most `skip_errors`:
every other field of the job survives the drain loop. -/
theorem skip_fold_fields (prompt : String → Bool) (l : List String)
    (jb : Job) :
    (l.foldl
        (fun jb c =>
          if jb.skip_errors then jb else { jb with skip_errors := prompt c })
        jb).running = jb.running ∧
    (l.foldl
        (fun jb c =>
          if jb.skip_errors then jb else { jb with skip_errors := prompt c })
        jb).type = jb.type ∧
    (l.foldl
        (fun jb c =>
          if jb.skip_errors then jb else { jb with skip_errors := prompt c })
        jb).bg_op_guard = jb.bg_op_guard ∧
    (l.foldl
        (fun jb c =>
          if jb.skip_errors then jb else { jb with skip_errors := prompt c })
        jb).pid = jb.pid := by
  induction l generalizing jb with
  | nil => exact ⟨rfl, rfl, rfl, rfl⟩
  | cons c rest ih =>
    simp only [List.foldl_cons]
    by_cases h : jb.skip_errors
    · simpa [h] using ih jb
    · simpa [h] using ih { jb with skip_errors := prompt c }

/-- `job_check` never touches `running`, `type`, `bg_op_guard` or `pid`. -/
theorem job_check_fields (prompt : String → Bool) (pipeData : List String)
    (j : Job) :
    (job_check prompt pipeData j).running = j.running ∧
    (job_check prompt pipeData j).type = j.type ∧
    (job_check prompt pipeData j).bg_op_guard = j.bg_op_guard ∧
    (job_check prompt pipeData j).pid = j.pid := by
  unfold job_check
  cases he : j.error with
  | none =>
    simpa [he] using
      skip_fold_fields prompt (if 0 ≤ j.fd then pipeData else []) j
  | some e =>
    by_cases h : j.skip_errors
    · simpa [he, h] using
        skip_fold_fields prompt (if 0 ≤ j.fd then pipeData else [])
          { j with error := none }
    · simpa [he, h] using
        skip_fold_fields prompt (if 0 ≤ j.fd then pipeData else [])
          { j with skip_errors := prompt e, error := none }

/-- `job_check` never touches `running`. -/
theorem job_check_running (prompt : String → Bool) (pipeData : List String)
    (j : Job) : (job_check prompt pipeData j).running = j.running :=
  (job_check_fields prompt pipeData j).1

/-- The poller's walk keeps exactly the still-running checked jobs and frees
exactly the finished ones, preserving relative order. -/
theorem reap_walk_eq (chk : Job → Job) (l : List Job) :
    reap_walk chk l
      = ((l.map chk).filter (fun j => j.running),
         (l.map chk).filter (fun j => !j.running)) := by
  induction l with
  | nil => rfl
  | cons j rest ih =>
    simp only [reap_walk, ih, List.map_cons, List.filter_cons]
    cases h : (chk j).running <;> simp [h]

/-- A complete poller run is the filter of the per-job-checked registry. -/
theorem check_background_jobs_filter
    (prompt : String → Bool) (pipeData : Job → List String) (jobs : List Job) :
    check_background_jobs true prompt pipeData jobs
      = ((jobs.map (fun j => job_check prompt (pipeData j) j)).filter
           (fun j => j.running),
         (jobs.map (fun j => job_check prompt (pipeData j) j)).filter
           (fun j => !j.running)) := by
  cases jobs with
  | nil => rfl
  | cons j rest =>
    simp [check_background_jobs, reap_walk_eq]

/-- C1: after one complete run of the poller (freeze succeeded), exactly the
jobs whose `running` flag is false after their per-job check have been
unlinked and freed, every job still running remains in the registry, and the
relative order of the remaining jobs is unchanged. -/
theorem check_background_jobs_reaps_exactly_finished
    (prompt : String → Bool) (pipeData : Job → List String) (jobs : List Job) :
    check_background_jobs true prompt pipeData jobs
      = ((jobs.map (fun j => job_check prompt (pipeData j) j)).filter
           (fun j => j.running),
         (jobs.map (fun j => job_check prompt (pipeData j) j)).filter
           (fun j => !j.running)) :=
  check_background_jobs_filter prompt pipeData jobs

/-- C2: over a job's lifetime, `running` goes from true to false at most once
(no event ever raises it back), the only events that can perform the
transition are the asynchronous completion notification with a matching pid
(`add_finished_job`) or the worker's bootstrap return — never the poller's
`job_check` — and a notification carrying a real pid never touches a
thread-backed job (whose pid is `WRONG_PID`). -/
theorem running_single_transition :
    (∀ prompt pipeData j,
        (job_check prompt pipeData j).running = j.running) ∧
    (∀ e j, j.running = false → (applyEvent e j).running = false) ∧
    (∀ e j, j.running = true → (applyEvent e j).running = false →
        (∃ code, e = JobEvent.finishedNotification j.pid code) ∨
          ∃ func, e = JobEvent.bootstrapReturn func) ∧
    (∀ pid code j, pid ≠ WRONG_PID → j.pid = WRONG_PID →
        applyEvent (JobEvent.finishedNotification pid code) j = j) := by
  refine ⟨job_check_running, ?_, ?_, ?_⟩
  · intro e j h
    cases e with
    | finishedNotification pid code =>
      simp only [applyEvent]
      by_cases hp : j.pid = pid <;> simp [hp, h]
    | bootstrapReturn func => rfl
    | pollerCheck prompt pipeData =>
      simpa [applyEvent, job_check_running] using h
  · intro e j h1 h2
    cases e with
    | finishedNotification pid code =>
      by_cases hp : j.pid = pid
      · exact Or.inl ⟨code, by rw [hp]⟩
      · simp [applyEvent, hp, h1] at h2
    | bootstrapReturn func => exact Or.inr ⟨func, rfl⟩
    | pollerCheck prompt pipeData =>
      rw [applyEvent, job_check_running, h1] at h2
      exact absurd h2 (by simp)
  · intro pid code j hpid hj
    have hne : ¬ (j.pid = pid) := by
      rw [hj]
      exact fun hc => hpid hc.symm
    simp [applyEvent, hne]

/-- Witness for C2 at concrete inputs: a finished job stays finished under
the bootstrap event, a matching notification is recognised as the cause of
the transition on a running command job, and a real-pid notification leaves
a thread job untouched. -/
theorem running_single_transition_witness :
    (applyEvent (JobEvent.bootstrapReturn id)
        { sampleThreadJob with running := false }).running = false ∧
    ((∃ code, JobEvent.finishedNotification sampleCmdJob.pid 7
        = JobEvent.finishedNotification sampleCmdJob.pid code) ∨
      ∃ func, JobEvent.finishedNotification sampleCmdJob.pid 7
        = JobEvent.bootstrapReturn func) ∧
    applyEvent (JobEvent.finishedNotification 5 0) sampleThreadJob
      = sampleThreadJob :=
  ⟨running_single_transition.2.1 (JobEvent.bootstrapReturn id)
      { sampleThreadJob with running := false } rfl,
    running_single_transition.2.2.1
      (JobEvent.finishedNotification sampleCmdJob.pid 7) sampleCmdJob
      rfl (by decide),
    running_single_transition.2.2.2 5 0 sampleThreadJob (by decide) rfl⟩

/-- C8 counterexample: with a current job whose error buffer already holds
"old\n", reporting "new\n" leaves the buffer equal to exactly "new\n" — the
previous content is discarded (`replace_string`), not appended to, so the
resulting buffer differs from the appended text "old\nnew\n". -/
theorem error_msg_discards_previous :
    (error_msg (some { sampleCmdJob with error := some "old\n" }) "T"
        "new\n").1
      = some { sampleCmdJob with error := some "new\n" } ∧
    ("new\n" : String) ≠ "old\n" ++ "new\n" :=
  ⟨rfl, by decide⟩

/-- C8 amended: `error_msg` with no current-job context shows the message
synchronously; with a current job it instead replaces that job's error
buffer with the text (discarding any previous content) for later
UI-thread-driven display, leaving the UI untouched at report time. -/
theorem error_msg_routing (title text : String) (j : Job) :
    error_msg none title text = (none, some (title, text)) ∧
    error_msg (some j) title text
      = (some { j with error := some text }, none) :=
  ⟨rfl, rfl⟩

/-- The counting fold of `bg_has_active_jobs` counts running operations. -/
theorem bg_count_eq (jobs : List Job) (n : Nat) :
    jobs.foldl
        (fun n j => if j.running && j.type == BJT_OPERATION then n + 1 else n)
        n
      = n + jobs.countP (fun j => j.running && j.type == BJT_OPERATION) := by
  induction jobs generalizing n with
  | nil => simp
  | cons j rest ih =>
    by_cases h : (j.running && j.type == BJT_OPERATION) = true
    · rw [List.foldl_cons, if_pos h, ih (n + 1), List.countP_cons, if_pos h]
      omega
    · rw [List.foldl_cons, if_neg h, ih n, List.countP_cons, if_neg h]
      omega

/-- C10: `bg_has_active_jobs` leaves the registry unchanged, returns true
unconditionally when the freeze primitive fails, and otherwise returns true
iff some registered job is running with kind `BJT_OPERATION`. -/
theorem bg_has_active_jobs_spec (freezeOk : Bool) (jobs : List Job) :
    (bg_has_active_jobs freezeOk jobs).2 = jobs ∧
    (bg_has_active_jobs false jobs).1 = true ∧
    ((bg_has_active_jobs true jobs).1 = true ↔
      ∃ j ∈ jobs, j.running = true ∧ j.type = BJT_OPERATION) := by
  refine ⟨?_, rfl, ?_⟩
  · cases freezeOk <;> rfl
  · have hc := bg_count_eq jobs 0
    unfold bg_has_active_jobs
    rw [if_neg (not_not_intro rfl)]
    show decide
        (jobs.foldl
          (fun n j => if j.running && j.type == BJT_OPERATION then n + 1 else n)
          0 > 0) = true ↔ _
    rw [hc]
    simp [List.countP_pos_iff]

/-- Once the read loop has seen any chunk, the result stays `-1`. -/
theorem cwe_loop_res_neg (chunks : List String) (buf : String) :
    (cwe_loop chunks buf (-1)).2 = -1 := by
  induction chunks generalizing buf with
  | nil => rfl
  | cons c rest ih =>
    rw [cwe_loop]
    exact ih _

/-- A non-empty read sequence forces the loop's result to `-1`. -/
theorem cwe_loop_nonempty (c : String) (rest : List String) (buf : String)
    (res : Int) : (cwe_loop (c :: rest) buf res).2 = -1 := by
  rw [cwe_loop]
  exact cwe_loop_res_neg rest _

/-- C3: when the child writes a non-empty, non-lone-blank-line message to
its error stream, `background_and_wait_for_errors` reports exit code `-1`
regardless of the child's wait status, and the accumulated message is
routed to the current job's error buffer when a current-job context exists,
or shown immediately otherwise. -/
theorem cwe_nonempty_message_reports_failure
    (chunks : List String) (c : String) (wifexited : Bool) (status : Int)
    (j : Job) (hc : c ∈ chunks) (_hne : c ≠ "") (_hnb : c ≠ "\n") :
    (background_and_wait_for_errors (some j) true true chunks wifexited
        status).ret = -1 ∧
    (background_and_wait_for_errors none true true chunks wifexited
        status).ret = -1 ∧
    (background_and_wait_for_errors (some j) true true chunks wifexited
        status).cur = some { j with error := some (cwe_loop chunks "" 0).1 } ∧
    (background_and_wait_for_errors (some j) true true chunks wifexited
        status).shown = [] ∧
    (background_and_wait_for_errors none true true chunks wifexited
        status).shown
      = [("Background Process Error", (cwe_loop chunks "" 0).1)] := by
  obtain ⟨c0, rest, rfl⟩ : ∃ c0 rest, chunks = c0 :: rest := by
    cases chunks with
    | nil => cases hc
    | cons a l => exact ⟨a, l, rfl⟩
  have hres : (cwe_loop (c0 :: rest) "" 0).2 = -1 := cwe_loop_nonempty c0 rest "" 0
  unfold background_and_wait_for_errors
  simp [hres, error_msg]

/-- Witness for C3: a child that writes the single chunk "err\n" makes the
call fail with `-1` and routes the message accordingly in both contexts. -/
theorem cwe_nonempty_message_reports_failure_witness :
    (background_and_wait_for_errors (some sampleCmdJob) true true ["err\n"]
        true 3).ret = -1 ∧
    (background_and_wait_for_errors none true true ["err\n"] true 3).ret
      = -1 ∧
    (background_and_wait_for_errors (some sampleCmdJob) true true ["err\n"]
        true 3).cur
      = some { sampleCmdJob with
                error := some (cwe_loop ["err\n"] "" 0).1 } ∧
    (background_and_wait_for_errors (some sampleCmdJob) true true ["err\n"]
        true 3).shown = [] ∧
    (background_and_wait_for_errors none true true ["err\n"] true 3).shown
      = [("Background Process Error", (cwe_loop ["err\n"] "" 0).1)] :=
  cwe_nonempty_message_reports_failure ["err\n"] "err\n" true 3 sampleCmdJob
    (by simp) (by decide) (by decide)

/-- C4 counterexample: a child that writes "err\n" to its error stream and
exits with status 3 makes `background_and_wait_for_errors` report `-1`, not
the claimed exit code 3 (the non-empty message short-circuits the
wait-status path). -/
theorem cwe_exit3_returns_minus_one :
    (background_and_wait_for_errors none true true ["err\n"] true 3).ret
        = -1 ∧
    (background_and_wait_for_errors none true true ["err\n"] true 3).ret
        ≠ 3 := by
  refine ⟨by decide, ?_⟩
  intro h
  exact absurd h (by decide)

/-- C4 amended: the "err\n"/exit-3 run yields exit code `-1` together with
the exact message "err\n" (no leading or trailing blank-line artifacts);
the silent exit-0 run yields exit code 0, shows nothing and leaves the
error context untouched. -/
theorem cwe_concrete_evaluations :
    ((background_and_wait_for_errors none true true ["err\n"] true 3).ret
        = -1 ∧
     (background_and_wait_for_errors none true true ["err\n"] true 3).shown
        = [("Background Process Error", "err\n")]) ∧
    ((background_and_wait_for_errors none true true [] true 0).ret = 0 ∧
     (background_and_wait_for_errors none true true [] true 0).shown = [] ∧
     (background_and_wait_for_errors none true true [] true 0).cur
        = none) := by
  refine ⟨⟨by decide, by decide⟩, by decide, by decide, by decide⟩

/-- C5 (code-bug evidence): when `pthread_attr_init` fails after the job was
registered, `bg_execute` returns 1 but leaves the job in the registry with
`running` still true — it is never marked finished, unlike the
`pthread_create` failure path, which does mark it finished with exit code 1.
The bootstrap wrapper itself does set `running=false`, `exit_code=0`
unconditionally on return of the routine. -/
theorem bg_execute_attr_failure_leaves_running_job :
    (bg_execute true true false true true "scan" "scanning" 0 false 0 []).1
        = 1 ∧
    ((bg_execute true true false true true "scan" "scanning" 0 false 0
        []).2.map (fun j => (j.running, j.exit_code))) = [(true, 0)] ∧
    ((bg_execute true true true true false "scan" "scanning" 0 false 0
        []).2.map (fun j => (j.running, j.exit_code))) = [(false, 1)] ∧
    (∀ func j, (background_task_bootstrap func j).running = false ∧
        (background_task_bootstrap func j).exit_code = 0) :=
  ⟨rfl, rfl, rfl, fun _ _ => ⟨rfl, rfl⟩⟩

/-- C6 counterexample: with a command job that finished with exit code 127
in the registry, a complete poller run merely reaps it: afterwards the
registry is empty and no job carrying a rewritten command exists — the
poller performed no fast-run rewrite or relaunch. -/
theorem poller_does_not_relaunch_127 :
    (check_background_jobs true (fun _ => false) (fun _ => [])
        [sample127Job]).1 = [] ∧
    (check_background_jobs true (fun _ => false) (fun _ => [])
        [sample127Job]).2 = [sample127Job] := by
  exact ⟨by decide, by decide⟩

/-- C6 amended: the fast-run rewrite happens at launch time, not in the
poller: with fast-execution mode enabled, `start_background_job` launches
the job with the command rewritten by the external resolver, and a failed
rewrite aborts the start with `-1` leaving the registry unchanged; the
poller never launches anything — every job present after a complete poll is
the checked version of a job that was already registered. -/
theorem fast_run_rewrites_at_start
    (frc : String → Option String) (pipeOk forkOk mallocOk : Bool)
    (pid fd ec0 : Int) (cmd c : String) (skipErr : Bool) (registry : List Job)
    (prompt : String → Bool) (pipeData : Job → List String) (jobs : List Job)
    (j : Job) :
    (frc cmd = some c →
      ∃ job1, start_background_job true frc true true true pid fd ec0 cmd
          skipErr registry = (0, job1 :: registry) ∧ job1.cmd = c) ∧
    (frc cmd = none →
      start_background_job true frc pipeOk forkOk mallocOk pid fd ec0 cmd
          skipErr registry = (-1, registry)) ∧
    (j ∈ (check_background_jobs true prompt pipeData jobs).1 →
      ∃ j0 ∈ jobs, j = job_check prompt (pipeData j0) j0) := by
  refine ⟨?_, ?_, ?_⟩
  · intro h
    refine ⟨{ type := BJT_COMMAND, pid := pid, cmd := c, fd := fd,
              skip_errors := skipErr, running := true, exit_code := ec0,
              error := none,
              bg_op := { total := 0, done := 0, progress := -1, descr := none },
              bg_op_guard := false }, ?_, rfl⟩
    simp [start_background_job, h, add_background_job]
  · intro h
    simp [start_background_job, h]
  · intro hj
    rw [check_background_jobs_filter] at hj
    simp only [List.mem_filter, List.mem_map] at hj
    obtain ⟨⟨j0, hj0, rfl⟩, _⟩ := hj
    exact ⟨j0, hj0, rfl⟩

/-- Witness for C6's amended theorem at concrete inputs: a successful
rewrite launches the rewritten command, a failed rewrite aborts, and a job
surviving a poll was already registered. -/
theorem fast_run_rewrites_at_start_witness :
    (∃ job1, start_background_job true (fun _ => some "resolved") true true
        true 5 3 0 "ls" false [] = (0, job1 :: []) ∧ job1.cmd = "resolved") ∧
    (start_background_job true (fun _ => none) true true true 5 3 0 "ls"
        false [] = (-1, [])) ∧
    (∃ j0 ∈ [sampleCmdJob],
      sampleCmdJob = job_check (fun _ => false) ((fun _ => []) j0) j0) :=
  ⟨(fast_run_rewrites_at_start (fun _ => some "resolved") true true true 5 3
      0 "ls" "resolved" false [] (fun _ => false) (fun _ => []) [sampleCmdJob]
      sampleCmdJob).1 rfl,
   (fast_run_rewrites_at_start (fun _ => none) true true true 5 3 0 "ls"
      "resolved" false [] (fun _ => false) (fun _ => []) [sampleCmdJob]
      sampleCmdJob).2.1 rfl,
   (fast_run_rewrites_at_start (fun _ => some "resolved") true true true 5 3
      0 "ls" "resolved" false [] (fun _ => false) (fun _ => []) [sampleCmdJob]
      sampleCmdJob).2.2 (by decide)⟩

/-- C7: if `start_background_job` fails to create the error pipe, to fork
the child, or to allocate the job record, it returns `-1` and the registry
is left exactly as it was — no partially initialized job is reachable. -/
theorem start_background_job_failure_leaves_registry
    (fastRun : Bool) (frc : String → Option String)
    (pipeOk forkOk mallocOk : Bool) (pid fd ec0 : Int) (cmd : String)
    (skipErr : Bool) (registry : List Job)
    (h : pipeOk = false ∨ forkOk = false ∨ mallocOk = false) :
    start_background_job fastRun frc pipeOk forkOk mallocOk pid fd ec0 cmd
        skipErr registry = (-1, registry) := by
  unfold start_background_job
  cases hfc : (if fastRun then frc cmd else some cmd) with
  | none => rfl
  | some command =>
    rcases h with h | h | h
    · subst h
      simp
    · subst h
      by_cases hp : pipeOk <;> simp [hp]
    · subst h
      by_cases hp : pipeOk <;> by_cases hf : forkOk <;>
        simp [hp, hf, add_background_job]

/-- Witness for C7: a failed pipe creation aborts the start with the
registry untouched. -/
theorem start_background_job_failure_witness :
    start_background_job false (fun s => some s) false true true 5 3 0 "ls"
        false [] = (-1, []) :=
  start_background_job_failure_leaves_registry false (fun s => some s) false
    true true 5 3 0 "ls" false [] (Or.inl rfl)

/-- Events never create or destroy the progress guard, nor change the kind. -/
theorem applyEvent_guard (e : JobEvent) (j : Job) :
    (applyEvent e j).bg_op_guard = j.bg_op_guard ∧
    (applyEvent e j).type = j.type := by
  cases e with
  | finishedNotification pid code =>
    by_cases hp : j.pid = pid <;> simp [applyEvent, hp]
  | bootstrapReturn func => exact ⟨rfl, rfl⟩
  | pollerCheck prompt pipeData =>
    exact ⟨(job_check_fields prompt pipeData j).2.2.1,
      (job_check_fields prompt pipeData j).2.1⟩

/-- C9 counterexample: `add_background_job` initializes the progress guard
for a `BJT_TASK` job as well, although `BJT_TASK` is not `BJT_OPERATION` —
the guard exists for every non-command kind, not only for operations. -/
theorem task_job_has_guard :
    (add_background_job true (-1) "scan" (-1) BJT_TASK 0 []).map
        (fun p => p.1.bg_op_guard) = some true ∧
    BJT_TASK ≠ BJT_OPERATION :=
  ⟨rfl, by decide⟩

/-- C9 amended: the progress guard exists iff the job's kind is not
`BJT_COMMAND` (i.e. for both thread kinds, `BJT_TASK` and `BJT_OPERATION`);
it is initialized exactly once at creation (`add_background_job`) and
destroyed exactly once at destruction (`job_free`, under the same
condition), and no lifetime event — per-job check, completion notification
or bootstrap return — re-initializes or destroys it in between. -/
theorem guard_lifecycle
    (mallocOk : Bool) (pid : Int) (cmd : String) (fd : Int) (ty : BgJobType)
    (ec0 : Int) (registry : List Job) (p : Job × List Job)
    (hp : add_background_job mallocOk pid cmd fd ty ec0 registry = some p)
    (e : JobEvent) (j : Job) :
    (p.1.bg_op_guard = true ↔ ty ≠ BJT_COMMAND) ∧
    ((job_free p.1).destroyed_guard = true ↔ ty ≠ BJT_COMMAND) ∧
    (applyEvent e j).bg_op_guard = j.bg_op_guard ∧
    (applyEvent e j).type = j.type := by
  cases mallocOk with
  | false => simp [add_background_job] at hp
  | true =>
    simp only [add_background_job, if_true] at hp
    obtain rfl := Option.some.inj hp.symm
    refine ⟨by simp, by simp [job_free], applyEvent_guard e j⟩

/-- Witness for C9's amended theorem: the guard of a freshly created task
job exists, its destruction is paired, and a bootstrap return leaves a
command job's guard and kind unchanged. -/
theorem guard_lifecycle_witness :
    (((sampleThreadJob, [sampleThreadJob]) : Job × List Job).1.bg_op_guard
        = true ↔ BJT_TASK ≠ BJT_COMMAND) ∧
    ((job_free ((sampleThreadJob, [sampleThreadJob]) :
        Job × List Job).1).destroyed_guard = true ↔ BJT_TASK ≠ BJT_COMMAND) ∧
    (applyEvent (JobEvent.bootstrapReturn id) sampleCmdJob).bg_op_guard
        = sampleCmdJob.bg_op_guard ∧
    (applyEvent (JobEvent.bootstrapReturn id) sampleCmdJob).type
        = sampleCmdJob.type :=
  guard_lifecycle true (-1) "scan" (-1) BJT_TASK 0 []
    (sampleThreadJob, [sampleThreadJob]) (by decide)
    (JobEvent.bootstrapReturn id) sampleCmdJob

end Background
